import Mathlib

/-!
Shallow embedding of `sb_live_view/live_view.py` (class `SpectrometerLiveView`).

The numeric scalar type of the Python code (float64) is modelled by an
arbitrary linear ordered field `α`; claim theorems instantiate it at `ℚ`
(where every definition is kernel-executable) or at `ℝ` (for the claim
about the exact value of `-log10`).  `numpy.log10` is modelled by an
explicit function parameter `log10 : α → α`, instantiated with
`Real.logb 10` where the real logarithm matters.

A Python expression that raises an exception (e.g. `numpy` `argmax` /
`argmin` of an empty array, or indexing with a boolean mask of the wrong
length) is modelled by `Option`: `none` means the computation raised.
-/

namespace SBLiveView

/-- The display mode enumeration `SpectrometerLiveView.Mode`. -/
inductive Mode where
  | intensity
  | transmittance
  | absorbance
deriving DecidableEq, Repr

/-- `SpectrometerLiveView.INTENSITY_THRESHOLD = 1`. -/
def INTENSITY_THRESHOLD (α : Type) [One α] : α := 1

/-- `YRANGE_PARAM[mode]['default']` (floats `4000`, `1.1`, `1.1`). -/
def yrange_default (α : Type) [LinearOrderedField α] : Mode → α
  | Mode.intensity => 4000
  | Mode.transmittance => 11 / 10
  | Mode.absorbance => 11 / 10

/-- `YRANGE_PARAM[mode]['step']` (floats `500`, `0.1`, `0.1`). -/
def yrange_step (α : Type) [LinearOrderedField α] : Mode → α
  | Mode.intensity => 500
  | Mode.transmittance => 1 / 10
  | Mode.absorbance => 1 / 10

/-- `YRANGE_PARAM[mode]['min']` (floats `500`, `0.1`, `0.1`). -/
def yrange_min (α : Type) [LinearOrderedField α] : Mode → α
  | Mode.intensity => 500
  | Mode.transmittance => 1 / 10
  | Mode.absorbance => 1 / 10

/-- `INTEG_TIME_PARAM` (`default`, `step`, `min`), microseconds. -/
def INTEG_TIME_default : ℤ := 4000

def INTEG_TIME_step : ℤ := 1000

def INTEG_TIME_min : ℤ := 3000

/-- The mutable state of a `SpectrometerLiveView` object that the modelled
operations read or write: the per-session wavelength array, the optional
blanking baseline, the current mode, the peak-finder flag, the integration
window, the y-axis limits and the (x, y) data of the three plotted lines. -/
structure Session (α : Type) where
  wavelengths : List α
  blanking_intensities : Option (List α)
  current_mode : Mode
  peakfinder_enabled : Bool
  integ_window : ℤ
  y_lim : α × α
  liveview_line : List α × List α
  blanking_line : List α × List α
  peakfind_line : List α × List α

variable {α : Type} [LinearOrderedField α]

/-- `numpy.ndarray.argmax` on a one-dimensional array: the index of the
first occurrence of the maximum value, together with that value; `none`
models the `ValueError` raised on an empty array. -/
def argmax : List α → Option (Nat × α)
  | [] => none
  | v :: vs =>
    match argmax vs with
    | none => some (0, v)
    | some (i, m) => if v < m then some (i + 1, m) else some (0, v)

/-- `numpy.ndarray.argmin`: index of the first occurrence of the minimum
value, with that value; `none` models the `ValueError` on an empty array. -/
def argmin : List α → Option (Nat × α)
  | [] => none
  | v :: vs =>
    match argmin vs with
    | none => some (0, v)
    | some (i, m) => if m < v then some (i + 1, m) else some (0, v)

/-- `SpectrometerLiveView.find_peak(x, y, peak_type)`: select `argmax` or
`argmin` of `y` by the string `peak_type` (the source's default argument is
`'max'`; call sites here always pass it explicitly), then return
`(x[ind], y[ind])`; `none` models the exceptions (`argmax`/`argmin` of an
empty array, index out of range). -/
def find_peak (x y : List α) (peak_type : String) : Option (α × α) :=
  let ind := if peak_type = ("max") then argmax y else argmin y
  match ind with
  | none => none
  | some (i, _) =>
    match x.get? i, y.get? i with
    | some peak_x, some peak_y => some (peak_x, peak_y)
    | _, _ => none

/-- The boolean mask `self.blanking_intensities > self.INTENSITY_THRESHOLD`
(numpy elementwise comparison). -/
def computeMask (blanking : List α) : List Bool :=
  blanking.map (fun b => if INTENSITY_THRESHOLD α < b then true else false)

/-- numpy boolean-mask indexing `xs[mask]`: keep the elements of `xs` at
positions where `mask` is `true` (callers guard that the lengths agree,
mirroring the `IndexError` numpy raises otherwise). -/
def select : List Bool → List α → List α
  | b :: bs, x :: xs => if b then x :: select bs xs else select bs xs
  | _, _ => []

/-- The fields of the data dict that `update` fills only when a blanking
baseline is present (source lines 313-326). -/
structure BlankData (α : Type) where
  mask : List Bool
  transmittance : List α
  absorbance : List α
  wavelengths_masked : List α
  minimum_transmittance : α × α
  maximum_absorbance : α × α
deriving DecidableEq

/-- The body of `if self.blanking_intensities is not None:` in `update`:
mask, `transmittance = intensities[mask]/blanking[mask]`,
`absorbance = -log10(transmittance)`, masked wavelengths, and the two
peaks.  `none` models an exception: a boolean mask whose length does not
match the indexed array (numpy `IndexError`), or `find_peak` on empty
masked arrays (numpy `ValueError`). -/
def blank_block (log10 : α → α) (wavelengths intensities blanking : List α) :
    Option (BlankData α) :=
  if blanking.length = intensities.length ∧ blanking.length = wavelengths.length then
    let mask := computeMask blanking
    let transmittance :=
      List.zipWith (fun a b => a / b) (select mask intensities) (select mask blanking)
    let absorbance := transmittance.map (fun t => -log10 t)
    let wavelengths_masked := select mask wavelengths
    match find_peak wavelengths_masked transmittance ("min"),
          find_peak wavelengths_masked absorbance ("max") with
    | some minimum_transmittance, some maximum_absorbance =>
        some ⟨mask, transmittance, absorbance, wavelengths_masked,
              minimum_transmittance, maximum_absorbance⟩
    | _, _ => none
  else none

/-- The per-frame output of `update` that the claims are about: the
`maximum_intensity` peak, the optional blanking-dependent data, and the
(x, y) series handed to the three plotted lines. -/
structure Frame (α : Type) where
  maximum_intensity : α × α
  blank_data : Option (BlankData α)
  liveview_x : List α
  liveview_y : List α
  blanking_x : List α
  blanking_y : List α
  peakfind_x : List α
  peakfind_y : List α
deriving DecidableEq

/-- The peak-marker line data: `[peak_x, peak_x]` against
`[0.0, 1.1*peak_y]` when the peak finder is enabled, else empty
(source lines 347-349; `1.1` is `11/10`). -/
def peakfind_data (peakfinder_enabled : Bool) (peak : α × α) : List α × List α :=
  if peakfinder_enabled then ([peak.1, peak.1], [0, (11 / 10 : α) * peak.2]) else ([], [])

/-- `SpectrometerLiveView.update` (source lines 295-358), restricted to its
pure data flow: read `intensities`, compute `maximum_intensity`, the
optional blanking-dependent data, and the mode-dependent line series.
`none` models an uncaught exception: `find_peak` on empty arrays, a
mask/array length mismatch, or the `NameError` hit when the mode is
transmittance/absorbance while `blanking_intensities` is `None` (the
branch reads the local `mask` that was never assigned). -/
def update (log10 : α → α) (s : Session α) (intensities : List α) :
    Option (Frame α) :=
  match find_peak s.wavelengths intensities ("max") with
  | none => none
  | some maximum_intensity =>
    match s.blanking_intensities with
    | none =>
      match s.current_mode with
      | Mode.intensity =>
          some ⟨maximum_intensity, none, s.wavelengths, intensities, [], [],
                (peakfind_data s.peakfinder_enabled maximum_intensity).1,
                (peakfind_data s.peakfinder_enabled maximum_intensity).2⟩
      | _ => none
    | some blanking =>
      match blank_block log10 s.wavelengths intensities blanking with
      | none => none
      | some bd =>
        match s.current_mode with
        | Mode.intensity =>
            some ⟨maximum_intensity, some bd, s.wavelengths, intensities,
                  s.wavelengths, blanking,
                  (peakfind_data s.peakfinder_enabled maximum_intensity).1,
                  (peakfind_data s.peakfinder_enabled maximum_intensity).2⟩
        | Mode.transmittance =>
            some ⟨maximum_intensity, some bd, bd.wavelengths_masked, bd.transmittance,
                  [], [],
                  (peakfind_data s.peakfinder_enabled bd.minimum_transmittance).1,
                  (peakfind_data s.peakfinder_enabled bd.minimum_transmittance).2⟩
        | Mode.absorbance =>
            some ⟨maximum_intensity, some bd, bd.wavelengths_masked, bd.absorbance,
                  [], [],
                  (peakfind_data s.peakfinder_enabled bd.maximum_absorbance).1,
                  (peakfind_data s.peakfinder_enabled bd.maximum_absorbance).2⟩

/-- `save`: writes the data dict to disk; it reads no session field modelled
here and mutates none, so on the modelled state it is the identity. -/
def save (s : Session α) : Session α := s

/-- `save_figure`: writes the current figure to disk; identity on the
modelled session state. -/
def save_figure (s : Session α) : Session α := s

/-- `blank` (source lines 174-182): in intensity mode, store the y-data of
the live-view line as the blanking baseline; otherwise only print a
message. -/
def blank (s : Session α) : Session α :=
  if s.current_mode = Mode.intensity then
    { s with blanking_intensities := some s.liveview_line.2 }
  else s

/-- `clear_blank` (source lines 184-192): in intensity mode, set the
blanking baseline to `None`; otherwise only print a message. -/
def clear_blank (s : Session α) : Session α :=
  if s.current_mode = Mode.intensity then
    { s with blanking_intensities := none }
  else s

/-- `increase_y_range`: add the mode's step to the y-axis upper limit. -/
def increase_y_range (s : Session α) : Session α :=
  { s with y_lim := (s.y_lim.1, s.y_lim.2 + yrange_step α s.current_mode) }

/-- `decrease_y_range`: subtract the mode's step from the y-axis upper
limit, clamped below by the mode's minimum. -/
def decrease_y_range (s : Session α) : Session α :=
  { s with y_lim :=
      (s.y_lim.1, max (s.y_lim.2 - yrange_step α s.current_mode) (yrange_min α s.current_mode)) }

/-- `reset_y_axis`: set the y-axis limits to `(0, default)` for the current
mode (the y-label change is not part of the modelled state). -/
def reset_y_axis (s : Session α) : Session α :=
  { s with y_lim := (0, yrange_default α s.current_mode) }

/-- `set_mode_to_intensity` (source lines 216-221): unconditional. -/
def set_mode_to_intensity (s : Session α) : Session α :=
  reset_y_axis { s with current_mode := Mode.intensity }

/-- `set_mode_to_transmittance` (source lines 223-231): refused (message
only) when `blanking_intensities` is `None`. -/
def set_mode_to_transmittance (s : Session α) : Session α :=
  match s.blanking_intensities with
  | none => s
  | some _ => reset_y_axis { s with current_mode := Mode.transmittance }

/-- `set_mode_to_absorbance` (source lines 233-241): refused (message only)
when `blanking_intensities` is `None`. -/
def set_mode_to_absorbance (s : Session α) : Session α :=
  match s.blanking_intensities with
  | none => s
  | some _ => reset_y_axis { s with current_mode := Mode.absorbance }

/-- `toggle_peakfinder`: prints stored peaks (swallowing `KeyError`), then
flips the flag. -/
def toggle_peakfinder (s : Session α) : Session α :=
  { s with peakfinder_enabled := !s.peakfinder_enabled }

/-- `print_help`: prints the command list; identity on the state. -/
def print_help (s : Session α) : Session α := s

/-- `increase_integ_window`: add one step to the integration window. -/
def increase_integ_window (s : Session α) : Session α :=
  { s with integ_window := s.integ_window + INTEG_TIME_step }

/-- `decrease_integ_window`: subtract one step, clamped at the minimum. -/
def decrease_integ_window (s : Session α) : Session α :=
  { s with integ_window := max (s.integ_window - INTEG_TIME_step) INTEG_TIME_min }

/-- The state effect of one `update` call: on success the three plotted
lines receive the computed frame's series; when the frame computation
raises (`update … = none`) the exception propagates before any
`set_data` call, so the modelled fields are left as they were.  In
neither case is `blanking_intensities` assigned (source lines 295-358
only read it). -/
def update_session (log10 : α → α) (s : Session α) (intensities : List α) :
    Session α :=
  match update log10 s intensities with
  | none => s
  | some fr =>
      { s with liveview_line := (fr.liveview_x, fr.liveview_y),
               blanking_line := (fr.blanking_x, fr.blanking_y),
               peakfind_line := (fr.peakfind_x, fr.peakfind_y) }

/-- The `event_key_to_callback` dispatch table (source lines 101-115), as
an association list from the symbolic key name to the session action. -/
def event_key_to_callback (α : Type) [LinearOrderedField α] :
    List (String × (Session α → Session α)) :=
  [ ("s", save), ("f", save_figure), ("b", blank), ("c", clear_blank),
    ("up", increase_y_range), ("down", decrease_y_range),
    ("i", set_mode_to_intensity), ("t", set_mode_to_transmittance),
    ("a", set_mode_to_absorbance), ("p", toggle_peakfinder),
    (".", increase_integ_window), (",", decrease_integ_window),
    ("h", print_help) ]

/-- `on_key_press` (source lines 139-148): look the key up in the dispatch
table and run the callback; a `KeyError` on an unrecognized key is caught
and ignored (`pass`), leaving the state unchanged. -/
def on_key_press (s : Session α) (key : String) : Session α :=
  match (event_key_to_callback α).lookup key with
  | some cb => cb s
  | none => s

/-! ### Properties of `argmax`, `argmin` and `find_peak` -/

theorem argmax_cons_isSome (v : α) (vs : List α) : (argmax (v :: vs)).isSome := by
  rw [argmax]
  cases argmax vs with
  | none => rfl
  | some p =>
    obtain ⟨i, m⟩ := p
    by_cases hc : v < m
    · simp [hc]
    · simp [hc]

theorem argmin_cons_isSome (v : α) (vs : List α) : (argmin (v :: vs)).isSome := by
  rw [argmin]
  cases argmin vs with
  | none => rfl
  | some p =>
    obtain ⟨i, m⟩ := p
    by_cases hc : m < v
    · simp [hc]
    · simp [hc]

/-- `argmax` returns an in-range index whose entry is the maximum value,
and every strictly earlier entry is strictly below it (first occurrence). -/
theorem argmax_spec (l : List α) (i : Nat) (m : α) (h : argmax l = some (i, m)) :
    l.get? i = some m ∧ (∀ j v, l.get? j = some v → v ≤ m) ∧
      (∀ j, j < i → ∀ v, l.get? j = some v → v < m) := by
  induction l generalizing i m with
  | nil => simp [argmax] at h
  | cons v vs ih =>
    rw [argmax] at h
    cases hvs : argmax vs with
    | none =>
      rw [hvs] at h
      simp only [Option.some.injEq, Prod.mk.injEq] at h
      obtain ⟨hi, hm⟩ := h
      subst hi
      subst hm
      have hnil : vs = [] := by
        cases vs with
        | nil => rfl
        | cons w ws =>
          have hs := argmax_cons_isSome w ws
          rw [hvs] at hs
          simp at hs
      subst hnil
      refine ⟨rfl, ?_, ?_⟩
      · intro j v' hj
        cases j with
        | zero => simp at hj; simp [hj]
        | succ k => simp at hj
      · intro j hj
        omega
    | some p =>
      obtain ⟨i', m'⟩ := p
      simp only [hvs] at h
      obtain ⟨hget, hbound, hfirst⟩ := ih i' m' hvs
      by_cases hc : v < m'
      · rw [if_pos hc] at h
        simp only [Option.some.injEq, Prod.mk.injEq] at h
        obtain ⟨hi, hm⟩ := h
        subst hi
        subst hm
        refine ⟨by simpa using hget, ?_, ?_⟩
        · intro j v' hj
          cases j with
          | zero =>
            simp at hj
            subst hj
            exact le_of_lt hc
          | succ k =>
            simp at hj
            exact hbound k v' (by rw [List.get?_eq_getElem?]; exact hj)
        · intro j hj v' hjv
          cases j with
          | zero =>
            simp at hjv
            subst hjv
            exact hc
          | succ k =>
            simp at hjv
            exact hfirst k (by omega) v' (by rw [List.get?_eq_getElem?]; exact hjv)
      · rw [if_neg hc] at h
        simp only [Option.some.injEq, Prod.mk.injEq] at h
        obtain ⟨hi, hm⟩ := h
        subst hi
        subst hm
        refine ⟨rfl, ?_, ?_⟩
        · intro j v' hj
          cases j with
          | zero => simp at hj; simp [hj]
          | succ k =>
            simp at hj
            exact le_trans (hbound k v' (by rw [List.get?_eq_getElem?]; exact hj)) (not_lt.mp hc)
        · intro j hj
          omega

/-- `argmin` returns an in-range index whose entry is the minimum value,
and every strictly earlier entry is strictly above it (first occurrence). -/
theorem argmin_spec (l : List α) (i : Nat) (m : α) (h : argmin l = some (i, m)) :
    l.get? i = some m ∧ (∀ j v, l.get? j = some v → m ≤ v) ∧
      (∀ j, j < i → ∀ v, l.get? j = some v → m < v) := by
  induction l generalizing i m with
  | nil => simp [argmin] at h
  | cons v vs ih =>
    rw [argmin] at h
    cases hvs : argmin vs with
    | none =>
      rw [hvs] at h
      simp only [Option.some.injEq, Prod.mk.injEq] at h
      obtain ⟨hi, hm⟩ := h
      subst hi
      subst hm
      have hnil : vs = [] := by
        cases vs with
        | nil => rfl
        | cons w ws =>
          have hs := argmin_cons_isSome w ws
          rw [hvs] at hs
          simp at hs
      subst hnil
      refine ⟨rfl, ?_, ?_⟩
      · intro j v' hj
        cases j with
        | zero => simp at hj; simp [hj]
        | succ k => simp at hj
      · intro j hj
        omega
    | some p =>
      obtain ⟨i', m'⟩ := p
      simp only [hvs] at h
      obtain ⟨hget, hbound, hfirst⟩ := ih i' m' hvs
      by_cases hc : m' < v
      · rw [if_pos hc] at h
        simp only [Option.some.injEq, Prod.mk.injEq] at h
        obtain ⟨hi, hm⟩ := h
        subst hi
        subst hm
        refine ⟨by simpa using hget, ?_, ?_⟩
        · intro j v' hj
          cases j with
          | zero =>
            simp at hj
            subst hj
            exact le_of_lt hc
          | succ k =>
            simp at hj
            exact hbound k v' (by rw [List.get?_eq_getElem?]; exact hj)
        · intro j hj v' hjv
          cases j with
          | zero =>
            simp at hjv
            subst hjv
            exact hc
          | succ k =>
            simp at hjv
            exact hfirst k (by omega) v' (by rw [List.get?_eq_getElem?]; exact hjv)
      · rw [if_neg hc] at h
        simp only [Option.some.injEq, Prod.mk.injEq] at h
        obtain ⟨hi, hm⟩ := h
        subst hi
        subst hm
        refine ⟨rfl, ?_, ?_⟩
        · intro j v' hj
          cases j with
          | zero => simp at hj; simp [hj]
          | succ k =>
            simp at hj
            exact le_trans (not_lt.mp hc) (hbound k v' (by rw [List.get?_eq_getElem?]; exact hj))
        · intro j hj
          omega

/-- A successful `find_peak … 'max'` returns a pair `(x[i], y[i])` where
`y[i]` is the maximum of `y` and `i` is its first occurrence. -/
theorem find_peak_max_spec (x y : List α) (p : α × α)
    (h : find_peak x y ("max") = some p) :
    ∃ i, x.get? i = some p.1 ∧ y.get? i = some p.2 ∧
      (∀ j v, y.get? j = some v → v ≤ p.2) ∧
      (∀ j, j < i → ∀ v, y.get? j = some v → v < p.2) := by
  simp only [find_peak, reduceIte] at h
  cases hy : argmax y with
  | none => rw [hy] at h; exact Option.noConfusion h
  | some q =>
    obtain ⟨i, m⟩ := q
    simp only [hy] at h
    obtain ⟨hget, hbound, hfirst⟩ := argmax_spec y i m hy
    cases hx : x.get? i with
    | none => simp only [hx] at h; exact Option.noConfusion h
    | some px =>
      simp only [hx, hget, Option.some.injEq] at h
      subst h
      exact ⟨i, hx, hget, hbound, hfirst⟩

/-- A successful `find_peak … 'min'` returns a pair `(x[i], y[i])` where
`y[i]` is the minimum of `y` and `i` is its first occurrence. -/
theorem find_peak_min_spec (x y : List α) (p : α × α)
    (h : find_peak x y ("min") = some p) :
    ∃ i, x.get? i = some p.1 ∧ y.get? i = some p.2 ∧
      (∀ j v, y.get? j = some v → p.2 ≤ v) ∧
      (∀ j, j < i → ∀ v, y.get? j = some v → p.2 < v) := by
  simp only [find_peak] at h
  rw [show (if ("min" : String) = ("max") then argmax y else argmin y) = argmin y
    from if_neg (by decide)] at h
  cases hy : argmin y with
  | none => rw [hy] at h; exact Option.noConfusion h
  | some q =>
    obtain ⟨i, m⟩ := q
    simp only [hy] at h
    obtain ⟨hget, hbound, hfirst⟩ := argmin_spec y i m hy
    cases hx : x.get? i with
    | none => simp only [hx] at h; exact Option.noConfusion h
    | some px =>
      simp only [hx, hget, Option.some.injEq] at h
      subst h
      exact ⟨i, hx, hget, hbound, hfirst⟩

/-- `find_peak … 'max'` succeeds whenever `y` is non-empty and `x` is at
least as long as `y`. -/
theorem find_peak_max_isSome (x y : List α) (hy : y ≠ [])
    (hlen : y.length ≤ x.length) : ∃ p, find_peak x y ("max") = some p := by
  obtain ⟨v, vs, rfl⟩ := List.exists_cons_of_ne_nil hy
  obtain ⟨⟨i, m⟩, hq⟩ := Option.isSome_iff_exists.mp (argmax_cons_isSome v vs)
  obtain ⟨hget, -, -⟩ := argmax_spec (v :: vs) i m hq
  have hi : i < (v :: vs).length := (List.get?_eq_some.mp hget).1
  have hxi : x.get? i = some (x.get ⟨i, lt_of_lt_of_le hi hlen⟩) :=
    List.get?_eq_get (lt_of_lt_of_le hi hlen)
  refine ⟨(x.get ⟨i, lt_of_lt_of_le hi hlen⟩, m), ?_⟩
  simp only [find_peak, reduceIte, hq, hxi, hget]

/-- `find_peak … 'min'` succeeds whenever `y` is non-empty and `x` is at
least as long as `y`. -/
theorem find_peak_min_isSome (x y : List α) (hy : y ≠ [])
    (hlen : y.length ≤ x.length) : ∃ p, find_peak x y ("min") = some p := by
  obtain ⟨v, vs, rfl⟩ := List.exists_cons_of_ne_nil hy
  obtain ⟨⟨i, m⟩, hq⟩ := Option.isSome_iff_exists.mp (argmin_cons_isSome v vs)
  obtain ⟨hget, -, -⟩ := argmin_spec (v :: vs) i m hq
  have hi : i < (v :: vs).length := (List.get?_eq_some.mp hget).1
  have hxi : x.get? i = some (x.get ⟨i, lt_of_lt_of_le hi hlen⟩) :=
    List.get?_eq_get (lt_of_lt_of_le hi hlen)
  refine ⟨(x.get ⟨i, lt_of_lt_of_le hi hlen⟩, m), ?_⟩
  simp only [find_peak]
  rw [show (if ("min" : String) = ("max") then argmax (v :: vs) else argmin (v :: vs))
      = argmin (v :: vs) from if_neg (by decide)]
  simp only [hq, hxi, hget]

/-! ### The mask as an index set -/

/-- The spec's index set `{i : baseline[i] > THRESHOLD}` (threshold
strictly exclusive), listed in increasing order. -/
def maskIndices (B : List α) : List Nat :=
  (List.range B.length).filter (fun i => decide (INTENSITY_THRESHOLD α < B.getD i 0))

theorem maskIndices_cons (b : α) (bs : List α) :
    maskIndices (b :: bs) =
      (if INTENSITY_THRESHOLD α < b then [0] else []) ++
        (maskIndices bs).map Nat.succ := by
  unfold maskIndices
  rw [List.length_cons, List.range_succ_eq_map, List.filter_cons, List.filter_map]
  have hpred : List.filter
        ((fun i => decide (INTENSITY_THRESHOLD α < (b :: bs).getD i 0)) ∘ Nat.succ)
        (List.range bs.length)
      = List.filter (fun i => decide (INTENSITY_THRESHOLD α < bs.getD i 0))
        (List.range bs.length) := by
    apply List.filter_congr
    intro i hi
    simp only [Function.comp_apply, List.getD_cons_succ]
  rw [hpred]
  by_cases hb : INTENSITY_THRESHOLD α < b
  · rw [if_pos (show decide (INTENSITY_THRESHOLD α < (b :: bs).getD 0 0) = true by
      simp only [List.getD_cons_zero, decide_eq_true_eq]; exact hb), if_pos hb]
    rfl
  · rw [if_neg (show ¬ decide (INTENSITY_THRESHOLD α < (b :: bs).getD 0 0) = true by
      simp only [List.getD_cons_zero, decide_eq_true_eq]; exact hb), if_neg hb]
    rfl

/-- Boolean-mask selection is selection of the spec's index set: for any
array `xs` of the same length as the baseline, `xs[mask]` is `xs` read at
the indices `{i : baseline[i] > threshold}` in increasing order. -/
theorem select_computeMask (B : List α) :
    ∀ xs : List α, xs.length = B.length →
      select (computeMask B) xs = (maskIndices B).map (fun i => xs.getD i 0) := by
  induction B with
  | nil =>
    intro xs hxs
    rw [List.length_nil, List.length_eq_zero] at hxs
    subst hxs
    rfl
  | cons b bs ih =>
    intro xs hxs
    cases xs with
    | nil => simp at hxs
    | cons x xs' =>
      simp only [List.length_cons, Nat.succ_inj] at hxs
      rw [maskIndices_cons, List.map_append, List.map_map]
      have hmap : (maskIndices bs).map ((fun i => (x :: xs').getD i 0) ∘ Nat.succ) =
          (maskIndices bs).map (fun i => xs'.getD i 0) := by
        apply List.map_congr_left
        intro i hi
        simp only [Function.comp_apply, List.getD_cons_succ]
      rw [hmap, ← ih xs' hxs]
      show select ((if INTENSITY_THRESHOLD α < b then true else false) :: computeMask bs)
        (x :: xs') = _
      by_cases hb : INTENSITY_THRESHOLD α < b
      · rw [if_pos hb, if_pos hb]
        show x :: select (computeMask bs) xs' = _
        simp [List.getD_cons_zero]
      · rw [if_neg hb, if_neg hb]
        show select (computeMask bs) xs' = _
        simp

/-- The masked transmittance `intensities[mask]/blanking[mask]` is the
elementwise quotient `I[i]/B[i]` over the spec's index set. -/
theorem transmittance_eq (B I : List α) (hI : I.length = B.length) :
    List.zipWith (fun a b => a / b) (select (computeMask B) I) (select (computeMask B) B) =
      (maskIndices B).map (fun i => I.getD i 0 / B.getD i 0) := by
  rw [select_computeMask B I hI, select_computeMask B B rfl, List.zipWith_map,
    List.zipWith_same]

theorem maskIndices_ne_nil (B : List α) (i : Nat) (hi : i < B.length)
    (hgt : INTENSITY_THRESHOLD α < B.getD i 0) : maskIndices B ≠ [] := by
  intro hnil
  have hmem : i ∈ maskIndices B := by
    unfold maskIndices
    rw [List.mem_filter]
    exact ⟨List.mem_range.mpr hi, by simpa using hgt⟩
  rw [hnil] at hmem
  simp at hmem

/-- When the baseline has an entry above the threshold (and the lengths
agree), the blanking block succeeds, and its fields are exactly the spec's:
transmittance is `I[i]/B[i]` over `{i : B[i] > 1}`, absorbance is
`-log10` of transmittance elementwise, the masked wavelengths are `W`
restricted to the same index set, and the two stored peaks are the
`find_peak` results on those series. -/
theorem blank_block_spec (log10 : α → α) (W I B : List α)
    (hIB : B.length = I.length) (hWB : B.length = W.length)
    (i0 : Nat) (hi0 : i0 < B.length) (hgt : INTENSITY_THRESHOLD α < B.getD i0 0) :
    ∃ bd, blank_block log10 W I B = some bd ∧
      bd.mask = computeMask B ∧
      bd.transmittance = (maskIndices B).map (fun i => I.getD i 0 / B.getD i 0) ∧
      bd.absorbance = bd.transmittance.map (fun t => -log10 t) ∧
      bd.wavelengths_masked = (maskIndices B).map (fun i => W.getD i 0) ∧
      find_peak bd.wavelengths_masked bd.transmittance ("min") =
        some bd.minimum_transmittance ∧
      find_peak bd.wavelengths_masked bd.absorbance ("max") =
        some bd.maximum_absorbance := by
  have htr : List.zipWith (fun a b => a / b) (select (computeMask B) I)
        (select (computeMask B) B)
      = (maskIndices B).map (fun i => I.getD i 0 / B.getD i 0) :=
    transmittance_eq B I hIB.symm
  have hw : select (computeMask B) W = (maskIndices B).map (fun i => W.getD i 0) :=
    select_computeMask B W hWB.symm
  have hnil : maskIndices B ≠ [] := maskIndices_ne_nil B i0 hi0 hgt
  have htr_ne : ((maskIndices B).map (fun i => I.getD i 0 / B.getD i 0)) ≠ [] := by
    simpa using hnil
  obtain ⟨pmin, hpmin⟩ := find_peak_min_isSome
    ((maskIndices B).map (fun i => W.getD i 0))
    ((maskIndices B).map (fun i => I.getD i 0 / B.getD i 0)) htr_ne (by simp)
  obtain ⟨pmax, hpmax⟩ := find_peak_max_isSome
    ((maskIndices B).map (fun i => W.getD i 0))
    (((maskIndices B).map (fun i => I.getD i 0 / B.getD i 0)).map (fun t => -log10 t))
    (by simpa using hnil) (by simp)
  refine ⟨⟨computeMask B,
          (maskIndices B).map (fun i => I.getD i 0 / B.getD i 0),
          ((maskIndices B).map (fun i => I.getD i 0 / B.getD i 0)).map (fun t => -log10 t),
          (maskIndices B).map (fun i => W.getD i 0), pmin, pmax⟩,
        ?_, rfl, rfl, rfl, rfl, hpmin, hpmax⟩
  simp only [blank_block]
  rw [if_pos ⟨hIB, hWB⟩]
  rw [htr, hw, hpmin, hpmax]

/-- When a blanking baseline with an above-threshold entry is present and
the array lengths agree, `update` succeeds (in every mode) and the frame
carries the blanking-block data. -/
theorem update_blanking_spec (log10 : α → α) (s : Session α) (I B : List α)
    (hB : s.blanking_intensities = some B)
    (hIB : B.length = I.length) (hWB : B.length = s.wavelengths.length)
    (i0 : Nat) (hi0 : i0 < B.length) (hgt : INTENSITY_THRESHOLD α < B.getD i0 0) :
    ∃ fr bd, update log10 s I = some fr ∧ fr.blank_data = some bd ∧
      blank_block log10 s.wavelengths I B = some bd := by
  obtain ⟨bd, hbd, -, -, -, -, -, -⟩ :=
    blank_block_spec log10 s.wavelengths I B hIB hWB i0 hi0 hgt
  have hIne : I ≠ [] := by
    intro hn
    rw [hn, List.length_nil] at hIB
    omega
  obtain ⟨mi, hmi⟩ := find_peak_max_isSome s.wavelengths I hIne
    (le_of_eq (hIB ▸ hWB))
  cases hm : s.current_mode with
  | intensity =>
    refine ⟨⟨mi, some bd, s.wavelengths, I, s.wavelengths, B,
            (peakfind_data s.peakfinder_enabled mi).1,
            (peakfind_data s.peakfinder_enabled mi).2⟩, bd, ?_, rfl, hbd⟩
    simp only [update, hmi, hB, hbd, hm]
  | transmittance =>
    refine ⟨⟨mi, some bd, bd.wavelengths_masked, bd.transmittance, [], [],
            (peakfind_data s.peakfinder_enabled bd.minimum_transmittance).1,
            (peakfind_data s.peakfinder_enabled bd.minimum_transmittance).2⟩,
          bd, ?_, rfl, hbd⟩
    simp only [update, hmi, hB, hbd, hm]
  | absorbance =>
    refine ⟨⟨mi, some bd, bd.wavelengths_masked, bd.absorbance, [], [],
            (peakfind_data s.peakfinder_enabled bd.maximum_absorbance).1,
            (peakfind_data s.peakfinder_enabled bd.maximum_absorbance).2⟩,
          bd, ?_, rfl, hbd⟩
    simp only [update, hmi, hB, hbd, hm]

/-! ### Claims -/

/-- A concrete session (intensity mode, no baseline) used to instantiate
claims with hypotheses. -/
def demoSession : Session ℚ :=
  ⟨[400, 500, 600], none, Mode.intensity, false, 4000, (0, 4000),
    ([], []), ([], []), ([], [])⟩

/-- A concrete session in transmittance mode with a stored baseline. -/
def demoSessionT : Session ℚ :=
  ⟨[400, 500, 600], some [5, 1/2, 15], Mode.transmittance, false, 4000,
    (0, 11/10), ([], []), ([], []), ([], [])⟩

/-- C7: switching to Transmittance or Absorbance while the blanking
baseline is `None` is rejected and leaves the session (in particular the
current mode) unchanged, with no exception; switching to Intensity always
succeeds regardless of the baseline. -/
theorem claim_C7 (s : Session ℚ) :
    (s.blanking_intensities = none →
      set_mode_to_transmittance s = s ∧ set_mode_to_absorbance s = s) ∧
    (set_mode_to_intensity s).current_mode = Mode.intensity := by
  constructor
  · intro h
    constructor
    · simp [set_mode_to_transmittance, h]
    · simp [set_mode_to_absorbance, h]
  · rfl

theorem claim_C7_witness :
    set_mode_to_transmittance demoSession = demoSession ∧
    set_mode_to_absorbance demoSession = demoSession ∧
    (set_mode_to_intensity demoSession).current_mode = Mode.intensity :=
  ⟨((claim_C7 demoSession).1 rfl).1, ((claim_C7 demoSession).1 rfl).2,
    (claim_C7 demoSession).2⟩

/-- C10: in Transmittance or Absorbance mode `clear_blank` refuses to
clear and leaves the whole session (hence the baseline) unchanged; the
baseline is set to `None` exactly when the action runs in Intensity
mode. -/
theorem claim_C10 (s : Session ℚ) :
    (s.current_mode = Mode.transmittance ∨ s.current_mode = Mode.absorbance →
      clear_blank s = s) ∧
    (s.current_mode = Mode.intensity → (clear_blank s).blanking_intensities = none) ∧
    (s.current_mode ≠ Mode.intensity →
      (clear_blank s).blanking_intensities = s.blanking_intensities) := by
  refine ⟨?_, ?_, ?_⟩
  · rintro (h | h) <;> simp [clear_blank, h]
  · intro h
    simp [clear_blank, h]
  · intro h
    simp [clear_blank, h]

theorem claim_C10_witness :
    clear_blank demoSessionT = demoSessionT ∧
    (clear_blank demoSession).blanking_intensities = none :=
  ⟨(claim_C10 demoSessionT).1 (Or.inl rfl), (claim_C10 demoSession).2.1 rfl⟩

/-- C9: a key press whose key is not in the dispatch table is silently
ignored: the handler returns the session unchanged (the `KeyError` is
caught), and no state field changes. -/
theorem claim_C9 (s : Session ℚ) (key : String)
    (h : key ∉ (["s", "f", "b", "c", "up", "down", "i", "t", "a", "p", ".",
      ",", "h"] : List String)) :
    on_key_press s key = s := by
  simp only [List.mem_cons, List.not_mem_nil, or_false, not_or] at h
  obtain ⟨h1, h2, h3, h4, h5, h6, h7, h8, h9, h10, h11, h12, h13⟩ := h
  have e1 : (key == "s") = false := beq_eq_false_iff_ne.mpr h1
  have e2 : (key == "f") = false := beq_eq_false_iff_ne.mpr h2
  have e3 : (key == "b") = false := beq_eq_false_iff_ne.mpr h3
  have e4 : (key == "c") = false := beq_eq_false_iff_ne.mpr h4
  have e5 : (key == "up") = false := beq_eq_false_iff_ne.mpr h5
  have e6 : (key == "down") = false := beq_eq_false_iff_ne.mpr h6
  have e7 : (key == "i") = false := beq_eq_false_iff_ne.mpr h7
  have e8 : (key == "t") = false := beq_eq_false_iff_ne.mpr h8
  have e9 : (key == "a") = false := beq_eq_false_iff_ne.mpr h9
  have e10 : (key == "p") = false := beq_eq_false_iff_ne.mpr h10
  have e11 : (key == ".") = false := beq_eq_false_iff_ne.mpr h11
  have e12 : (key == ",") = false := beq_eq_false_iff_ne.mpr h12
  have e13 : (key == "h") = false := beq_eq_false_iff_ne.mpr h13
  simp [on_key_press, event_key_to_callback, List.lookup, e1, e2, e3, e4, e5,
    e6, e7, e8, e9, e10, e11, e12, e13]

theorem claim_C9_witness : on_key_press demoSession ("z") = demoSession :=
  claim_C9 demoSession ("z") (by decide)

/-- C8: every modelled operation other than `blank` (and other than the
explicit `clear_blank`) only reads the stored blanking baseline: mode
switches, the per-frame update, y-range and integration-window changes,
the peak-finder toggle and the saves all leave `blanking_intensities`
unchanged. -/
theorem claim_C8 (log10 : ℚ → ℚ) (s : Session ℚ) (I : List ℚ) :
    (set_mode_to_intensity s).blanking_intensities = s.blanking_intensities ∧
    (set_mode_to_transmittance s).blanking_intensities = s.blanking_intensities ∧
    (set_mode_to_absorbance s).blanking_intensities = s.blanking_intensities ∧
    (update_session log10 s I).blanking_intensities = s.blanking_intensities ∧
    (increase_y_range s).blanking_intensities = s.blanking_intensities ∧
    (decrease_y_range s).blanking_intensities = s.blanking_intensities ∧
    (increase_integ_window s).blanking_intensities = s.blanking_intensities ∧
    (decrease_integ_window s).blanking_intensities = s.blanking_intensities ∧
    (toggle_peakfinder s).blanking_intensities = s.blanking_intensities ∧
    (save s).blanking_intensities = s.blanking_intensities ∧
    (save_figure s).blanking_intensities = s.blanking_intensities := by
  refine ⟨rfl, ?_, ?_, ?_, rfl, rfl, rfl, rfl, rfl, rfl, rfl⟩
  · cases hsb : s.blanking_intensities with
    | none => simp [set_mode_to_transmittance, hsb]
    | some B => simp [set_mode_to_transmittance, reset_y_axis, hsb]
  · cases hsb : s.blanking_intensities with
    | none => simp [set_mode_to_absorbance, hsb]
    | some B => simp [set_mode_to_absorbance, reset_y_axis, hsb]
  · cases hu : update log10 s I with
    | none => simp [update_session, hu]
    | some fr => simp [update_session, hu]

/-- C4: in Intensity mode with no baseline, for every non-empty intensity
array and wavelength array of equal length, the frame displays the raw
intensities against the wavelengths, and `maximum_intensity` is the
maximum intensity paired with the wavelength at its first argmax index. -/
theorem claim_C4 (log10 : ℚ → ℚ) (s : Session ℚ) (I : List ℚ)
    (hmode : s.current_mode = Mode.intensity)
    (hbl : s.blanking_intensities = none)
    (hne : I ≠ []) (hlen : s.wavelengths.length = I.length) :
    ∃ fr, update log10 s I = some fr ∧
      fr.liveview_x = s.wavelengths ∧ fr.liveview_y = I ∧
      ∃ i, s.wavelengths.get? i = some fr.maximum_intensity.1 ∧
        I.get? i = some fr.maximum_intensity.2 ∧
        (∀ j v, I.get? j = some v → v ≤ fr.maximum_intensity.2) ∧
        (∀ j, j < i → ∀ v, I.get? j = some v → v < fr.maximum_intensity.2) := by
  obtain ⟨mi, hmi⟩ := find_peak_max_isSome s.wavelengths I hne (le_of_eq hlen.symm)
  refine ⟨⟨mi, none, s.wavelengths, I, [], [],
      (peakfind_data s.peakfinder_enabled mi).1,
      (peakfind_data s.peakfinder_enabled mi).2⟩, ?_, rfl, rfl, ?_⟩
  · simp only [update, hmi, hbl, hmode]
  · exact find_peak_max_spec s.wavelengths I mi hmi

theorem claim_C4_witness :
    ∃ fr, update (fun q => q) demoSession [10, 20, 30] = some fr ∧
      fr.liveview_x = demoSession.wavelengths ∧ fr.liveview_y = [10, 20, 30] ∧
      ∃ i, demoSession.wavelengths.get? i = some fr.maximum_intensity.1 ∧
        ([10, 20, 30] : List ℚ).get? i = some fr.maximum_intensity.2 ∧
        (∀ j v, ([10, 20, 30] : List ℚ).get? j = some v →
          v ≤ fr.maximum_intensity.2) ∧
        (∀ j, j < i → ∀ v, ([10, 20, 30] : List ℚ).get? j = some v →
          v < fr.maximum_intensity.2) :=
  claim_C4 (fun q => q) demoSession [10, 20, 30] rfl rfl (by decide) (by decide)

/-- C6: a successful peak search returns the first index attaining the
extremal value, for both the argmax and the argmin variant; in particular
for y = [5, 5, 3] the argmax peak is taken at index 0. -/
theorem claim_C6 :
    (∀ (x y : List ℚ) (p : ℚ × ℚ), find_peak x y ("max") = some p →
      ∃ i, x.get? i = some p.1 ∧ y.get? i = some p.2 ∧
        (∀ j v, y.get? j = some v → v ≤ p.2) ∧
        (∀ j, j < i → ∀ v, y.get? j = some v → v ≠ p.2)) ∧
    (∀ (x y : List ℚ) (p : ℚ × ℚ), find_peak x y ("min") = some p →
      ∃ i, x.get? i = some p.1 ∧ y.get? i = some p.2 ∧
        (∀ j v, y.get? j = some v → p.2 ≤ v) ∧
        (∀ j, j < i → ∀ v, y.get? j = some v → v ≠ p.2)) ∧
    find_peak ([400, 500, 600] : List ℚ) [5, 5, 3] ("max") = some (400, 5) := by
  refine ⟨?_, ?_, by decide⟩
  · intro x y p h
    obtain ⟨i, hx, hy, hbound, hfirst⟩ := find_peak_max_spec x y p h
    exact ⟨i, hx, hy, hbound, fun j hj v hv => ne_of_lt (hfirst j hj v hv)⟩
  · intro x y p h
    obtain ⟨i, hx, hy, hbound, hfirst⟩ := find_peak_min_spec x y p h
    exact ⟨i, hx, hy, hbound, fun j hj v hv => (ne_of_lt (hfirst j hj v hv)).symm⟩

theorem claim_C6_witness :
    ∃ i, ([400, 500, 600] : List ℚ).get? i = some ((400 : ℚ), (5 : ℚ)).1 ∧
      ([5, 5, 3] : List ℚ).get? i = some ((400 : ℚ), (5 : ℚ)).2 ∧
      (∀ j v, ([5, 5, 3] : List ℚ).get? j = some v → v ≤ ((400 : ℚ), (5 : ℚ)).2) ∧
      (∀ j, j < i → ∀ v, ([5, 5, 3] : List ℚ).get? j = some v →
        v ≠ ((400 : ℚ), (5 : ℚ)).2) :=
  claim_C6.1 [400, 500, 600] [5, 5, 3] (400, 5) (by decide)

/-- C3: with a baseline of the same length as the intensities containing
an entry above the threshold (strictly: `B[i] > 1`), the frame's
transmittance is exactly `I[i]/B[i]` over the index set `{i : B[i] > 1}`,
the absorbance is `-log10` of the transmittance elementwise on the same
mask, and the masked wavelengths are the wavelengths at the same index
set. -/
theorem claim_C3 (log10 : ℚ → ℚ) (s : Session ℚ) (I B : List ℚ)
    (hB : s.blanking_intensities = some B)
    (hIB : B.length = I.length) (hWB : B.length = s.wavelengths.length)
    (i0 : Nat) (hi0 : i0 < B.length) (hgt : (1 : ℚ) < B.getD i0 0) :
    ∃ fr bd, update log10 s I = some fr ∧ fr.blank_data = some bd ∧
      bd.transmittance = (maskIndices B).map (fun i => I.getD i 0 / B.getD i 0) ∧
      bd.absorbance = bd.transmittance.map (fun t => -log10 t) ∧
      bd.wavelengths_masked = (maskIndices B).map (fun i => s.wavelengths.getD i 0) := by
  obtain ⟨fr, bd, hfr, hfb, hbb⟩ :=
    update_blanking_spec log10 s I B hB hIB hWB i0 hi0 hgt
  obtain ⟨bd', hbb', -, ht, ha, hw, -, -⟩ :=
    blank_block_spec log10 s.wavelengths I B hIB hWB i0 hi0 hgt
  rw [hbb] at hbb'
  injection hbb' with e
  subst e
  exact ⟨fr, bd, hfr, hfb, ht, ha, hw⟩

theorem claim_C3_witness :
    ∃ fr bd, update (fun q => q) demoSessionT [10, 20, 30] = some fr ∧
      fr.blank_data = some bd ∧
      bd.transmittance = (maskIndices ([5, 1/2, 15] : List ℚ)).map
        (fun i => ([10, 20, 30] : List ℚ).getD i 0 / ([5, 1/2, 15] : List ℚ).getD i 0) ∧
      bd.absorbance = bd.transmittance.map (fun t => -(fun q => q) t) ∧
      bd.wavelengths_masked = (maskIndices ([5, 1/2, 15] : List ℚ)).map
        (fun i => demoSessionT.wavelengths.getD i 0) :=
  claim_C3 (fun q => q) demoSessionT [10, 20, 30] [5, 1/2, 15] rfl (by decide)
    (by decide) 0 (by decide) (by decide)

/-- C5: whenever the baseline is present with a non-empty mask (some entry
above the threshold) and the lengths agree, the stored
`minimum_transmittance` is the minimum of the masked transmittance values,
taken at its first argmin index and paired with the masked wavelength
there, and the stored `maximum_absorbance` is likewise the maximum of the
masked absorbance values paired with its masked wavelength. -/
theorem claim_C5 (log10 : ℚ → ℚ) (s : Session ℚ) (I B : List ℚ)
    (hB : s.blanking_intensities = some B)
    (hIB : B.length = I.length) (hWB : B.length = s.wavelengths.length)
    (i0 : Nat) (hi0 : i0 < B.length) (hgt : (1 : ℚ) < B.getD i0 0) :
    ∃ fr bd, update log10 s I = some fr ∧ fr.blank_data = some bd ∧
      (∃ i, bd.wavelengths_masked.get? i = some bd.minimum_transmittance.1 ∧
        bd.transmittance.get? i = some bd.minimum_transmittance.2 ∧
        (∀ j v, bd.transmittance.get? j = some v →
          bd.minimum_transmittance.2 ≤ v) ∧
        (∀ j, j < i → ∀ v, bd.transmittance.get? j = some v →
          bd.minimum_transmittance.2 < v)) ∧
      (∃ i, bd.wavelengths_masked.get? i = some bd.maximum_absorbance.1 ∧
        bd.absorbance.get? i = some bd.maximum_absorbance.2 ∧
        (∀ j v, bd.absorbance.get? j = some v → v ≤ bd.maximum_absorbance.2) ∧
        (∀ j, j < i → ∀ v, bd.absorbance.get? j = some v →
          v < bd.maximum_absorbance.2)) := by
  obtain ⟨fr, bd, hfr, hfb, hbb⟩ :=
    update_blanking_spec log10 s I B hB hIB hWB i0 hi0 hgt
  obtain ⟨bd', hbb', -, -, -, -, hpmin, hpmax⟩ :=
    blank_block_spec log10 s.wavelengths I B hIB hWB i0 hi0 hgt
  rw [hbb] at hbb'
  injection hbb' with e
  subst e
  exact ⟨fr, bd, hfr, hfb,
    find_peak_min_spec bd.wavelengths_masked bd.transmittance
      bd.minimum_transmittance hpmin,
    find_peak_max_spec bd.wavelengths_masked bd.absorbance
      bd.maximum_absorbance hpmax⟩

theorem claim_C5_witness :
    ∃ fr bd, update (fun q => q) demoSessionT [10, 20, 30] = some fr ∧
      fr.blank_data = some bd ∧
      (∃ i, bd.wavelengths_masked.get? i = some bd.minimum_transmittance.1 ∧
        bd.transmittance.get? i = some bd.minimum_transmittance.2 ∧
        (∀ j v, bd.transmittance.get? j = some v →
          bd.minimum_transmittance.2 ≤ v) ∧
        (∀ j, j < i → ∀ v, bd.transmittance.get? j = some v →
          bd.minimum_transmittance.2 < v)) ∧
      (∃ i, bd.wavelengths_masked.get? i = some bd.maximum_absorbance.1 ∧
        bd.absorbance.get? i = some bd.maximum_absorbance.2 ∧
        (∀ j v, bd.absorbance.get? j = some v → v ≤ bd.maximum_absorbance.2) ∧
        (∀ j, j < i → ∀ v, bd.absorbance.get? j = some v →
          v < bd.maximum_absorbance.2)) :=
  claim_C5 (fun q => q) demoSessionT [10, 20, 30] [5, 1/2, 15] rfl (by decide)
    (by decide) 0 (by decide) (by decide)

/-- C1 (code bug): with a baseline whose entries are all at or below the
threshold, the mask selects nothing and the masked series are empty — no
division is performed — but the claimed "undefined peak treated as no
peak to display" does not happen: `find_peak` is still called on the empty
masked arrays, `numpy` `argmin`/`argmax` raise `ValueError` on an empty
sequence, and the whole frame computation aborts (modelled by `update`
returning `none`). -/
theorem claim_C1_code_bug :
    computeMask ([1, 0] : List ℚ) = [false, false] ∧
    select (computeMask ([1, 0] : List ℚ)) ([10, 20] : List ℚ) = [] ∧
    blank_block (fun q => -q) [400, 500] [10, 20] ([1, 0] : List ℚ) = none ∧
    update (fun q => -q)
      (⟨[400, 500], some [1, 0], Mode.intensity, false, 4000, (0, 4000),
        ([], []), ([], []), ([], [])⟩ : Session ℚ) [10, 20] = none := by
  refine ⟨?_, ?_, ?_, ?_⟩ <;> decide

/-- Numeric bound: `301/1000 < log10 2`, from `10^301 < 2^1000`. -/
theorem logb_ten_two_gt : (301 : ℝ) / 1000 < Real.logb 10 2 := by
  rw [Real.lt_logb_iff_rpow_lt (by norm_num) (by norm_num)]
  have h1000 : ((10 : ℝ) ^ ((301 : ℝ) / 1000)) ^ (1000 : ℕ) < (2 : ℝ) ^ (1000 : ℕ) := by
    rw [← Real.rpow_natCast ((10 : ℝ) ^ ((301 : ℝ) / 1000)) 1000,
      ← Real.rpow_mul (by norm_num : (0 : ℝ) ≤ 10)]
    have hexp : (301 : ℝ) / 1000 * ((1000 : ℕ) : ℝ) = ((301 : ℕ) : ℝ) := by
      push_cast
      ring
    rw [hexp, Real.rpow_natCast]
    have hnat : (10 : ℕ) ^ 301 < 2 ^ 1000 := by norm_num
    calc ((10 : ℝ) ^ (301 : ℕ)) = ((10 ^ 301 : ℕ) : ℝ) := by push_cast; ring
    _ < ((2 ^ 1000 : ℕ) : ℝ) := by exact_mod_cast hnat
    _ = (2 : ℝ) ^ (1000 : ℕ) := by push_cast; ring
  exact lt_of_pow_lt_pow_left₀ 1000 (by norm_num) h1000

/-- Numeric bound: `log10 2 < 302/1000`, from `2^1000 < 10^302`. -/
theorem logb_ten_two_lt : Real.logb 10 2 < (302 : ℝ) / 1000 := by
  rw [Real.logb_lt_iff_lt_rpow (by norm_num) (by norm_num)]
  have h1000 : (2 : ℝ) ^ (1000 : ℕ) < ((10 : ℝ) ^ ((302 : ℝ) / 1000)) ^ (1000 : ℕ) := by
    rw [← Real.rpow_natCast ((10 : ℝ) ^ ((302 : ℝ) / 1000)) 1000,
      ← Real.rpow_mul (by norm_num : (0 : ℝ) ≤ 10)]
    have hexp : (302 : ℝ) / 1000 * ((1000 : ℕ) : ℝ) = ((302 : ℕ) : ℝ) := by
      push_cast
      ring
    rw [hexp, Real.rpow_natCast]
    have hnat : (2 : ℕ) ^ 1000 < 10 ^ 302 := by norm_num
    calc (2 : ℝ) ^ (1000 : ℕ) = ((2 ^ 1000 : ℕ) : ℝ) := by push_cast; ring
    _ < ((10 ^ 302 : ℕ) : ℝ) := by exact_mod_cast hnat
    _ = (10 : ℝ) ^ (302 : ℕ) := by push_cast; ring
  exact lt_of_pow_lt_pow_left₀ 1000 (Real.rpow_nonneg (by norm_num) _) h1000

/-- The session of the spec's concrete scenario: wavelengths
W = [400, 500, 600], stored baseline B = [5, 0.5, 15], intensity mode. -/
noncomputable def scenarioSession : Session ℝ :=
  ⟨[400, 500, 600], some [5, 1/2, 15], Mode.intensity, false, 4000, (0, 4000),
    ([], []), ([], []), ([], [])⟩

/-- The blanking data the code computes in the scenario: note
`I[2]/B[2] = 30/15 = 2`, so the transmittance is `[2, 2]` (the spec's
`[2.0, 6.0]` is wrong), and both peaks resolve by the first-occurrence
tie-break to wavelength 400. -/
noncomputable def scenarioBlankData : BlankData ℝ :=
  ⟨[true, false, true], [2, 2], [-Real.logb 10 2, -Real.logb 10 2], [400, 600],
    (400, 2), (400, -Real.logb 10 2)⟩

/-- The full frame the code computes in the scenario (intensity mode,
peak finder off). -/
noncomputable def scenarioFrame : Frame ℝ :=
  ⟨(600, 30), some scenarioBlankData, [400, 500, 600], [10, 20, 30],
    [400, 500, 600], [5, 1/2, 15], [], []⟩

/-- Evaluation of the scenario: `update` on I = [10, 20, 30] returns
exactly `scenarioFrame`. -/
theorem scenario_update_eval :
    update (Real.logb 10) scenarioSession [10, 20, 30] = some scenarioFrame := by
  have hmask : computeMask ([5, 1/2, 15] : List ℝ) = [true, false, true] := by
    norm_num [computeMask, INTENSITY_THRESHOLD]
  have hsel_w : select [true, false, true] ([400, 500, 600] : List ℝ) = [400, 600] := by
    simp [select]
  have hsel_i : select [true, false, true] ([10, 20, 30] : List ℝ) = [10, 30] := by
    simp [select]
  have hsel_b : select [true, false, true] ([5, 1/2, 15] : List ℝ) = [5, 15] := by
    simp [select]
  have htr : List.zipWith (fun a b => a / b) ([10, 30] : List ℝ) [5, 15] = [2, 2] := by
    norm_num
  have habs : ([2, 2] : List ℝ).map (fun t => -Real.logb 10 t)
      = [-Real.logb 10 2, -Real.logb 10 2] := by
    simp
  have hargmin : argmin ([2, 2] : List ℝ) = some (0, 2) := by
    norm_num [argmin]
  have hargmax_abs : argmax ([-Real.logb 10 2, -Real.logb 10 2])
      = some (0, -Real.logb 10 2) := by
    simp [argmax]
  have hargmax_i : argmax ([10, 20, 30] : List ℝ) = some (2, 30) := by
    norm_num [argmax]
  have hmin : find_peak ([400, 600] : List ℝ) [2, 2] ("min") = some (400, 2) := by
    simp only [find_peak]
    rw [show (if ("min" : String) = ("max") then argmax ([2, 2] : List ℝ)
        else argmin [2, 2]) = argmin [2, 2] from if_neg (by decide)]
    rw [hargmin]
    rfl
  have hmaxa : find_peak ([400, 600] : List ℝ)
      [-Real.logb 10 2, -Real.logb 10 2] ("max")
      = some (400, -Real.logb 10 2) := by
    simp only [find_peak, reduceIte, hargmax_abs]
    rfl
  have hmi : find_peak ([400, 500, 600] : List ℝ) [10, 20, 30] ("max")
      = some (600, 30) := by
    simp only [find_peak, reduceIte, hargmax_i]
    rfl
  have hbb : blank_block (Real.logb 10) [400, 500, 600] [10, 20, 30]
      ([5, 1/2, 15] : List ℝ) = some scenarioBlankData := by
    simp only [blank_block]
    rw [if_pos (show ([5, 1/2, 15] : List ℝ).length = ([10, 20, 30] : List ℝ).length ∧
      ([5, 1/2, 15] : List ℝ).length = ([400, 500, 600] : List ℝ).length from ⟨rfl, rfl⟩)]
    rw [hmask, hsel_i, hsel_b, hsel_w, htr, habs, hmin, hmaxa]
    rfl
  show update (Real.logb 10) scenarioSession [10, 20, 30] = some scenarioFrame
  simp only [update, scenarioSession, scenarioFrame, peakfind_data, reduceIte, hmi]
  rw [hbb]
  rfl

/-- C2 counterexample: the claimed transmittance series `[2.0, 6.0]` (and
absorbance `[-log10 2, -log10 6]`) is not what the code computes on
W = [400, 500, 600], I = [10, 20, 30], B = [5, 0.5, 15]: the computed
transmittance is `[2, 2]` since `30/15 = 2`. -/
theorem claim_C2_counterexample :
    ¬ ∃ fr bd, update (Real.logb 10) scenarioSession [10, 20, 30] = some fr ∧
        fr.blank_data = some bd ∧ bd.transmittance = [2, 6] := by
  rintro ⟨fr, bd, hfr, hbd, ht⟩
  rw [scenario_update_eval] at hfr
  injection hfr with e
  subst e
  rw [show scenarioFrame.blank_data = some scenarioBlankData from rfl] at hbd
  injection hbd with e2
  subst e2
  rw [show scenarioBlankData.transmittance = [2, 2] from rfl] at ht
  norm_num at ht

/-- C2 (amended): in the spec's scenario the code computes
mask = [true, false, true], masked wavelengths [400, 600], transmittance
[2, 2] (not [2, 6]: `30/15 = 2`), Transmittance-mode peak = minimum =
(400, 2) by the first-occurrence tie-break, absorbance
[-log10 2, -log10 2], and Absorbance-mode peak = maximum =
(400, -log10 2) with -0.302 < -log10 2 < -0.301. -/
theorem claim_C2_amended :
    ∃ fr bd, update (Real.logb 10) scenarioSession [10, 20, 30] = some fr ∧
      fr.blank_data = some bd ∧
      bd.mask = [true, false, true] ∧
      bd.wavelengths_masked = [400, 600] ∧
      bd.transmittance = [2, 2] ∧
      bd.minimum_transmittance = (400, 2) ∧
      bd.absorbance = [-Real.logb 10 2, -Real.logb 10 2] ∧
      bd.maximum_absorbance = (400, -Real.logb 10 2) ∧
      (-0.302 : ℝ) < -Real.logb 10 2 ∧ -Real.logb 10 2 < (-0.301 : ℝ) := by
  refine ⟨scenarioFrame, scenarioBlankData, scenario_update_eval, rfl, rfl, rfl,
    rfl, rfl, rfl, rfl, ?_, ?_⟩
  · have h1 : Real.logb 10 2 < (0.302 : ℝ) := by
      rw [show (0.302 : ℝ) = 302 / 1000 by norm_num]
      exact logb_ten_two_lt
    linarith
  · have h2 : (0.301 : ℝ) < Real.logb 10 2 := by
      rw [show (0.301 : ℝ) = 301 / 1000 by norm_num]
      exact logb_ten_two_gt
    linarith

end SBLiveView
